import Mathlib

/-!
Shallow embedding of the `chclient` HTTP ClickHouse client
(package `chclient`, file `chclient.go`).

Go strings are modelled as Lean `String`s; where the Go code (or the Go
standard library functions it calls) operates on bytes, the model encodes
characters to UTF-8 bytes explicitly, so byte-level behaviour such as URL
escaping is preserved.  Network I/O is modelled by an oracle value
(`NetResult`) describing what one HTTP attempt produced, and the executor
is a pure function of those oracle values that also records the
observable events the specification talks about (was the fallback tried,
was the row handler invoked, were all received response bodies closed).
-/

namespace Chclient

/-! ### Go standard-library helpers used by the code

These model `net/url.QueryEscape`, `strconv` quoting as used by `fmt`'s
`%q` verb, and `time.Duration`.  They are external library functions, not
part of this repository, so they are reproduced here from their documented
behaviour (byte-wise percent-encoding with `+` for space; Go-syntax quoted
strings; nanosecond integer durations). -/

/-- Go `time.Duration`: a count of nanoseconds (int64 in Go; the values in
this development stay far from the 64-bit range, so plain `Int` is used). -/
abbrev Duration := Int

/-- One second, in nanoseconds (`time.Second`). -/
def second : Duration := 1000000000

/-- UTF-8 encoding of a single character, as a list of byte values.
Go strings are byte strings; `url.QueryEscape` works byte by byte. -/
def utf8Bytes (c : Char) : List Nat :=
  let n := c.toNat
  if n < 0x80 then [n]
  else if n < 0x800 then [0xC0 + n / 64, 0x80 + n % 64]
  else if n < 0x10000 then [0xE0 + n / 4096, 0x80 + n / 64 % 64, 0x80 + n % 64]
  else [0xF0 + n / 262144, 0x80 + n / 4096 % 64, 0x80 + n / 64 % 64, 0x80 + n % 64]

/-- Bytes that `net/url.QueryEscape` leaves unescaped: ASCII alphanumerics
and `-`, `_`, `.`, `~`. -/
def isUnreservedQueryByte (n : Nat) : Bool :=
  (0x30 ≤ n && n ≤ 0x39) || (0x41 ≤ n && n ≤ 0x5A) || (0x61 ≤ n && n ≤ 0x7A) ||
    n == 0x2D || n == 0x5F || n == 0x2E || n == 0x7E

/-- Upper-case hexadecimal digit for a value below 16. -/
def upperHexDigit (n : Nat) : Char :=
  if n < 10 then Char.ofNat (0x30 + n) else Char.ofNat (0x41 + (n - 10))

/-- Percent-encoding of one byte, e.g. `%2F`. -/
def percentEncodeByte (n : Nat) : List Char :=
  ['%', upperHexDigit (n / 16 % 16), upperHexDigit (n % 16)]

/-- `net/url.QueryEscape` on one character: space becomes `+`, unreserved
bytes stay, every other byte of the character's UTF-8 encoding is
percent-encoded. -/
def queryEscapeChar (c : Char) : List Char :=
  if c = ' ' then ['+']
  else if isUnreservedQueryByte c.toNat then [c]
  else (utf8Bytes c).flatMap percentEncodeByte

/-- Model of `net/url.QueryEscape`. -/
def queryEscape (s : String) : String :=
  String.mk (s.data.flatMap queryEscapeChar)

/-- Escaping of one character inside a Go-quoted string (`fmt`'s `%q` verb,
i.e. `strconv.Quote`): `"` and `\` are backslash-escaped, printable ASCII
stays itself, the common control characters use their named escapes, other
ASCII control bytes use `\xHH`.  (Non-ASCII printable characters are kept
verbatim, matching `strconv.Quote` for printable runes.) -/
def quoteChar (c : Char) : List Char :=
  if c = '"' then ['\\', '"']
  else if c = '\\' then ['\\', '\\']
  else if 0x20 ≤ c.toNat && c.toNat < 0x7F then [c]
  else if c = Char.ofNat 0x07 then ['\\', 'a']
  else if c = Char.ofNat 0x08 then ['\\', 'b']
  else if c = Char.ofNat 0x0C then ['\\', 'f']
  else if c = '\n' then ['\\', 'n']
  else if c = Char.ofNat 0x0D then ['\\', 'r']
  else if c = '\t' then ['\\', 't']
  else if c = Char.ofNat 0x0B then ['\\', 'v']
  else if c.toNat < 0x80 then '\\' :: 'x' :: (percentEncodeByte c.toNat).tail
  else [c]

/-- Model of Go's `%q` formatting of a string (`strconv.Quote`). -/
def goQuote (s : String) : String :=
  String.mk ('"' :: s.data.flatMap quoteChar ++ ['"'])

/-! ### Data model (`Params`, `Client`) -/

/-- `Params` from `chclient.go`: per-request ClickHouse parameters. -/
structure Params where
  /-- User to use when connecting to clickhouse; `default` if not set. -/
  User : String
  /-- Password to use when connecting to clickhouse; empty if not set. -/
  Password : String
  /-- Database to use. -/
  Database : String
  /-- Raw URL parameters added verbatim before the fixed parameters. -/
  URLParams : List String
deriving DecidableEq, Repr

/-- `Client` from `chclient.go`.  The Go struct embeds `Params`; the
embedding is modelled with `extends`, so the promoted fields (`c.User`,
`c.URLParams`, …) exist here as in Go. -/
structure Client extends Params where
  /-- Clickhouse address to connect to; `localhost:8123` by default. -/
  Addr : String
  /-- Fallback address used if the request to `Addr` fails; none by default. -/
  FallbackAddr : String
  /-- Whether to send requests over https. -/
  UseHTTPS : Bool
  /-- Whether to request compressed responses from clickhouse. -/
  CompressResponse : Bool
  /-- Maximum duration for the query; `DefaultTimeout` is used if not positive. -/
  Timeout : Duration
deriving DecidableEq, Repr

/-- `DefaultTimeout` from `chclient.go`: `30 * time.Second`. -/
def DefaultTimeout : Duration := 30 * second

/-- `Client.addr`: the primary address, defaulting to `localhost:8123`. -/
def Client.addr (c : Client) : String :=
  if c.Addr = "" then "localhost:8123" else c.Addr

/-- `Client.timeout`: `DefaultTimeout` when `c.Timeout <= 0`, else `c.Timeout`. -/
def Client.timeout (c : Client) : Duration :=
  if c.Timeout ≤ 0 then DefaultTimeout else c.Timeout

/-- The deadline computed by `Do` and `DoParams`:
`time.Now().Add(c.timeout())` with `now` the current instant
(nanoseconds). -/
def Client.doDeadline (c : Client) (now : Int) : Int :=
  now + c.timeout

/-! ### Request builder (`prepareRequest`) -/

/-- An HTTP request as built by `prepareRequest`: method, full URL, body,
and the headers explicitly set on it (`http.NewRequest` itself sets no
header that the code inspects). -/
structure Request where
  method : String
  url : String
  body : String
  headers : List (String × String)
deriving DecidableEq, Repr

/-- The query-parameter list assembled by `prepareRequest` (`chclient.go`
lines 181-199): the raw `params.URLParams` strings in order, then
`user=<escaped user or "default">`, then `password=<escaped>` if the
password is non-empty, then `database=<escaped>` if the database is
non-empty, then `enable_http_compression=1` if `c.CompressResponse`. -/
def prepareArgs (c : Client) (params : Params) : List String :=
  let args := params.URLParams
  let user := if params.User.length > 0 then queryEscape params.User else "default"
  let args := args ++ ["user=" ++ user]
  let args := if params.Password ≠ "" then
    args ++ ["password=" ++ queryEscape params.Password] else args
  let args := if params.Database ≠ "" then
    args ++ ["database=" ++ queryEscape params.Database] else args
  if c.CompressResponse then args ++ ["enable_http_compression=1"] else args

/-- The query string of the built request: the assembled parameters joined
with `&` (`strings.Join(args, "&")`). -/
def Client.queryString (c : Client) (params : Params) : String :=
  String.intercalate "&" (prepareArgs c params)

/-- `Client.prepareRequest`: POST request to
`{scheme}://{addr}/?{query string}` with the raw query text as body;
when `CompressResponse` is unset it sets `Accept-Encoding: identity` to
disable the transport's transparent response decompression. -/
def Client.prepareRequest (c : Client) (addr query : String) (params : Params) : Request :=
  let scheme := if c.UseHTTPS then "https" else "http"
  let xurl := scheme ++ "://" ++ addr ++ "/?" ++ c.queryString params
  { method := "POST"
    url := xurl
    body := query
    headers := if !c.CompressResponse then [("Accept-Encoding", "identity")] else [] }

/-! ### Executor (`doRequest`, `doContext`, `Do`, `DoParams`, `Ping`) -/

/-- What one HTTP attempt produced, as seen at the transport layer: either
a transport-level failure carrying the transport's error text, or a
received response with its status code, `Content-Type` header and body. -/
inductive NetResult where
  | transportErr (msg : String)
  | response (statusCode : Nat) (contentType : String) (body : String)
deriving DecidableEq, Repr

/-- A response that `doRequest` hands to `doContext` (status already
checked to be 200): its `Content-Type` header and its body. -/
structure Response where
  contentType : String
  body : String
deriving DecidableEq, Repr

/-- The error text of `doRequest` on a transport failure
(`fmt.Errorf("error when performing query %q at %q: %s", query, addr, err)`);
the raw transport error is appended verbatim (`%s`). -/
def transportErrMsg (query addr err : String) : String :=
  "error when performing query " ++ goQuote query ++ " at " ++ goQuote addr ++ ": " ++ err

/-- The error text of `doRequest` on a non-200 status
(`fmt.Errorf("unexpected status code for query %q sent to %q: %d. Response body: %q", ...)`);
`respBody` is the body read in full by `ioutil.ReadAll`. -/
def statusErrMsg (query addr : String) (code : Nat) (respBody : String) : String :=
  "unexpected status code for query " ++ goQuote query ++ " sent to " ++ goQuote addr ++
    ": " ++ toString code ++ ". Response body: " ++ goQuote respBody

/-- The error text of `doContext` when the `Content-Type` of a 200 response
does not start with `text/tab-separated-values`. -/
def contentTypeErrMsg (query addr ct : String) : String :=
  "unexpected Content-Type for query " ++ goQuote query ++ " sent to " ++ goQuote addr ++
    ": " ++ goQuote ct ++ ". Expecting " ++ goQuote "text/tab-separated-values"

/-- The error text of `doContext` when both the primary and the fallback
attempt fail (`fmt.Errorf("cannot request neither primary nor fallback
address: %q and %q", err, err2)`). -/
def twoErrMsg (err err2 : String) : String :=
  "cannot request neither primary nor fallback address: " ++ goQuote err ++ " and " ++ goQuote err2

/-- Result of `doRequest`: the returned `(*http.Response, error)` pair
(`Except`), plus whether every body received inside `doRequest` was closed
before it returned (`true` on both error paths: no body exists on a
transport error, and the non-200 path closes the body after reading it;
`false` on success, where the open body is handed to the caller). -/
structure RequestOutcome where
  result : Except String Response
  bodyClosed : Bool
deriving Repr

/-- `Client.doRequest` (`chclient.go` lines 159-173), as a function of the
network oracle `net` for this attempt: a transport failure is wrapped in
`transportErrMsg`; a response with status ≠ 200 has its body read in full,
closed, and reported in `statusErrMsg`; a 200 response is returned with
its body open. -/
def Client.doRequest (c : Client) (addr query : String) (params : Params)
    (net : NetResult) : RequestOutcome :=
  let _req := c.prepareRequest addr query params
  match net with
  | .transportErr e =>
    { result := .error (transportErrMsg query addr e), bodyClosed := true }
  | .response code ct body =>
    if code ≠ 200 then
      { result := .error (statusErrMsg query addr code body), bodyClosed := true }
    else
      { result := .ok { contentType := ct, body := body }, bodyClosed := false }

/-- A row handler (`ReadRowsFunc`), abstracted: given the response whose
body backs the `tsvreader`, it yields the pair
`(error returned by the handler, the reader's terminal r.Error() state
after the handler returned)`.  `none` models a nil `ReadRowsFunc`. -/
abbrev RowHandler := Option (Response → Option String × Option String)

/-- The observable outcome of one `doContext` call: the returned error
(`none` models a nil error, i.e. success), whether a request was sent to
the fallback address, whether the row handler was invoked, and whether
every received response body was closed before returning. -/
structure ExecTrace where
  result : Option String
  fallbackTried : Bool
  handlerInvoked : Bool
  bodiesClosed : Bool
deriving DecidableEq, Repr

/-- Model of Go `strings.HasPrefix(s, pre)`: byte-wise prefix test,
represented on the character lists (the constant compared against here is
ASCII, where the two views coincide). -/
def hasPfx (s pre : String) : Bool := pre.data.isPrefixOf s.data

/-- The tail of `doContext` (`chclient.go` lines 140-157) once a 200
response is in hand from address `addr`: with a nil handler return success
at once; otherwise check the `Content-Type` prefix, then run the handler
over the `tsvreader` stream and return its error if non-nil, else the
reader's terminal error.  Returns the call's error and whether the handler
was invoked; the body is closed on every one of these paths (`defer`). -/
def consumeResponse (query addr : String) (resp : Response) (f : RowHandler) :
    Option String × Bool :=
  match f with
  | none => (none, false)
  | some fh =>
    if ¬ (hasPfx resp.contentType "text/tab-separated-values") then
      (some (contentTypeErrMsg query addr resp.contentType), false)
    else
      let out := fh resp
      (match out.1 with
       | some e => some e
       | none => out.2, true)

/-- `Client.doContext` (`chclient.go` lines 124-157) as a function of the
network oracles for the primary and (if tried) fallback attempt: on any
error from the primary attempt, return it if no fallback address is
configured, otherwise try the fallback once and combine the two errors if
it also fails; a successful response is then consumed by
`consumeResponse`. -/
def Client.doContext (c : Client) (query : String) (params : Params)
    (netPrimary netFallback : NetResult) (f : RowHandler) : ExecTrace :=
  let addr := c.addr
  let o1 := c.doRequest addr query params netPrimary
  match o1.result with
  | .error err =>
    if c.FallbackAddr.length = 0 then
      { result := some err, fallbackTried := false, handlerInvoked := false,
        bodiesClosed := o1.bodyClosed }
    else
      let o2 := c.doRequest c.FallbackAddr query params netFallback
      match o2.result with
      | .error err2 =>
        { result := some (twoErrMsg err err2), fallbackTried := true,
          handlerInvoked := false, bodiesClosed := o1.bodyClosed && o2.bodyClosed }
      | .ok resp =>
        let out := consumeResponse query c.FallbackAddr resp f
        { result := out.1, fallbackTried := true, handlerInvoked := out.2,
          bodiesClosed := o1.bodyClosed }
  | .ok resp =>
    let out := consumeResponse query addr resp f
    { result := out.1, fallbackTried := false, handlerInvoked := out.2,
      bodiesClosed := true }

/-- `Client.DoContext`: `doContext` with the client-level `Params`. -/
def Client.DoContext (c : Client) (query : String)
    (netPrimary netFallback : NetResult) (f : RowHandler) : ExecTrace :=
  c.doContext query c.toParams netPrimary netFallback f

/-- `Client.Do`: sets a deadline of `doDeadline` and runs `DoContext`. -/
def Client.Do (c : Client) (query : String)
    (netPrimary netFallback : NetResult) (f : RowHandler) : ExecTrace :=
  c.DoContext query netPrimary netFallback f

/-- `Client.DoParams`: sets a deadline of `doDeadline` and runs `doContext`
with the caller-supplied per-call `params` in place of the client-level
ones. -/
def Client.DoParams (c : Client) (query : String) (params : Params)
    (netPrimary netFallback : NetResult) (f : RowHandler) : ExecTrace :=
  c.doContext query params netPrimary netFallback f

/-- `Client.Ping`: `c.Do("SELECT 1", nil)`. -/
def Client.Ping (c : Client) (netPrimary netFallback : NetResult) : ExecTrace :=
  c.Do "SELECT 1" netPrimary netFallback none

/-! ### Spec-side definition for the query-string claim

`specQueryString` transcribes the specification's description of the query
string word for word (raw params verbatim in order, then `user=` with
`default` for an empty user, then `password=` only if non-empty, then
`database=` only if non-empty, then `enable_http_compression=1` only if
compression is on, all joined by `&`), to be compared against the
code-derived `Client.queryString`. -/

/-- The query string as the specification describes it. -/
def specQueryString (compress : Bool) (params : Params) : String :=
  String.intercalate "&"
    (params.URLParams
      ++ ["user=" ++ (if params.User = "" then "default" else queryEscape params.User)]
      ++ (if params.Password ≠ "" then ["password=" ++ queryEscape params.Password] else [])
      ++ (if params.Database ≠ "" then ["database=" ++ queryEscape params.Database] else [])
      ++ (if compress then ["enable_http_compression=1"] else []))

/-! ### Sample configurations used for concrete runs -/

/-- A zero-value `Client`, as Go's `&Client{}`: every field at its zero
value, so all the documented defaults apply. -/
def baseClient : Client :=
  { User := "", Password := "", Database := "", URLParams := [],
    Addr := "", FallbackAddr := "", UseHTTPS := false,
    CompressResponse := false, Timeout := 0 }

/-- A client with a fallback address configured. -/
def fbClient : Client := { baseClient with FallbackAddr := "fallback:8123" }

/-- A client whose configured password is `secret`. -/
def secretClient : Client := { baseClient with Password := "secret" }

/-- A transport error text of the shape Go's `net/http` produces for a
refused connection: it echoes the dialed URL, whose query string carries
the password parameter. -/
def echoedTransportErr : String :=
  "Post http://localhost:8123/?user=default&password=secret: dial tcp 127.0.0.1:8123: connect: connection refused"

/-- A response body of 100000 bytes, longer than any plausible diagnostic
bound. -/
def longBody : String := String.mk (List.replicate 100000 'a')

/-- Per-call params whose raw `URLParams` list itself carries the
compression parameter verbatim. -/
def sneakyParams : Params :=
  { User := "", Password := "", Database := "",
    URLParams := ["enable_http_compression=1"] }

/-! ### Helper lemmas about the string model -/

theorem data_append (s t : String) : (s ++ t).data = s.data ++ t.data := rfl

theorem data_eq_nil_iff (s : String) : s.data = [] ↔ s = "" := by
  cases s with
  | mk d =>
    constructor
    · intro h
      subst h
      rfl
    · intro h
      rw [h]

theorem length_eq_zero_iff (s : String) : s.length = 0 ↔ s = "" := by
  rw [show s.length = s.data.length from rfl, List.length_eq_zero, data_eq_nil_iff]

theorem length_pos_iff (s : String) : s.length > 0 ↔ s ≠ "" := by
  rw [gt_iff_lt, show s.length = s.data.length from rfl, List.length_pos, Ne, data_eq_nil_iff]

theorem infixLeft (s t : String) {l : List Char} (h : l <:+: s.data) :
    l <:+: (s ++ t).data := by
  rw [data_append]
  exact h.trans ((List.prefix_append s.data t.data).isInfix)

theorem infixRight (s t : String) {l : List Char} (h : l <:+: t.data) :
    l <:+: (s ++ t).data := by
  rw [data_append]
  exact h.trans ((List.suffix_append s.data t.data).isInfix)

theorem quoteChar_flatMap_id {l : List Char} (h : ∀ c ∈ l, quoteChar c = [c]) :
    l.flatMap quoteChar = l := by
  induction l with
  | nil => rfl
  | cons a t ih =>
    rw [List.flatMap_cons, h a (by simp), ih (fun c hc => h c (by simp [hc]))]
    rfl

theorem goQuote_contains {s : String} (h : ∀ c ∈ s.data, quoteChar c = [c]) :
    s.data <:+: (goQuote s).data := by
  unfold goQuote
  rw [show (String.mk ('"' :: s.data.flatMap quoteChar ++ ['"'])).data
        = '"' :: s.data.flatMap quoteChar ++ ['"'] from rfl,
    quoteChar_flatMap_id h]
  exact ⟨['"'], ['"'], rfl⟩

/-! ### Claims -/

/-- C2: the query string built by `prepareRequest` is exactly the raw
`URLParams` in order, then `user=` (escaped, `default` when empty), then
`password=` if non-empty, then `database=` if non-empty, then
`enable_http_compression=1` if compression is on, joined by `&`; and on
`URLParams = ["no_cache=1", "default_format=Pretty"]` with empty
user/password/database and compression off it is exactly
`no_cache=1&default_format=Pretty&user=default`. -/
theorem queryString_exact :
    (∀ (c : Client) (params : Params),
      c.queryString params = specQueryString c.CompressResponse params)
    ∧ ({ baseClient with
          URLParams := ["no_cache=1", "default_format=Pretty"] : Client }).queryString
        { User := "", Password := "", Database := "",
          URLParams := ["no_cache=1", "default_format=Pretty"] } =
        "no_cache=1&default_format=Pretty&user=default" := by
  constructor
  · intro c p
    unfold Client.queryString prepareArgs specQueryString
    congr 1
    have huser : (if p.User.length > 0 then queryEscape p.User else "default")
        = (if p.User = "" then "default" else queryEscape p.User) := by
      by_cases hu : p.User = ""
      · simp [hu]
      · simp [hu, (length_pos_iff p.User).mpr hu]
    by_cases hp : p.Password = "" <;> by_cases hd : p.Database = "" <;>
      cases hc : c.CompressResponse <;>
        simp [hp, hd, hc, huser, List.append_assoc]
  · decide

/-- C5: a per-call `Params` value fully replaces the client-level one —
no field of the client-level `Params` influences the built request or the
call trace when per-call params are supplied to `DoParams`. -/
theorem doParams_replaces_client_params :
    ∀ (c : Client) (p1 p2 perCall : Params) (addr query : String)
      (net1 net2 : NetResult) (f : RowHandler),
      ({ c with toParams := p1 }).prepareRequest addr query perCall
        = ({ c with toParams := p2 }).prepareRequest addr query perCall
      ∧ ({ c with toParams := p1 }).DoParams query perCall net1 net2 f
        = ({ c with toParams := p2 }).DoParams query perCall net1 net2 f := by
  intro c p1 p2 perCall addr query net1 net2 f
  exact ⟨rfl, rfl⟩

/-- C6: with a nil row handler, a 200 response (whatever its
`Content-Type`) yields immediate success: no fallback, no handler
invocation, no Content-Type check, and the body is closed; `Ping` is this
call with query `SELECT 1`, so it succeeds without ever invoking a
handler. -/
theorem nil_handler_immediate_success :
    ∀ (c : Client) (query : String) (params : Params) (ct body : String) (net2 : NetResult),
      c.doContext query params (.response 200 ct body) net2 none =
        { result := none, fallbackTried := false, handlerInvoked := false,
          bodiesClosed := true }
      ∧ c.Ping (.response 200 ct body) net2 =
        { result := none, fallbackTried := false, handlerInvoked := false,
          bodiesClosed := true } := by
  intro c query params ct body net2
  exact ⟨rfl, rfl⟩

/-- C7: when the handler runs over the stream of a 200
tab-separated-values response, the call's result is the handler's error
if non-nil, and otherwise the stream reader's own terminal error state. -/
theorem handler_error_precedence (c : Client) (query : String) (params : Params)
    (ct body : String) (net2 : NetResult)
    (fh : Response → Option String × Option String)
    (hct : hasPfx ct "text/tab-separated-values" = true) :
    (c.doContext query params (.response 200 ct body) net2 (some fh)).handlerInvoked = true
    ∧ (c.doContext query params (.response 200 ct body) net2 (some fh)).result =
        (match (fh { contentType := ct, body := body }).1 with
         | some e => some e
         | none => (fh { contentType := ct, body := body }).2) := by
  unfold Client.doContext Client.doRequest consumeResponse
  simp [hct]

/-- Witness for C7 at a concrete run: handler error `bad row` wins over
the stream's terminal error, and a nil handler error falls through to the
stream's terminal error. -/
theorem handler_error_precedence_witness :
    (baseClient.doContext "SELECT 1" baseClient.toParams
        (.response 200 "text/tab-separated-values; charset=UTF-8" "1\n")
        (.transportErr "")
        (some (fun _ => (some "bad row", some "stream fail")))).result = some "bad row"
    ∧ (baseClient.doContext "SELECT 1" baseClient.toParams
        (.response 200 "text/tab-separated-values; charset=UTF-8" "1\n")
        (.transportErr "")
        (some (fun _ => (none, some "stream fail")))).result = some "stream fail" := by
  constructor
  · exact (handler_error_precedence baseClient "SELECT 1" baseClient.toParams
      "text/tab-separated-values; charset=UTF-8" "1\n" (.transportErr "")
      (fun _ => (some "bad row", some "stream fail")) (by decide)).2
  · exact (handler_error_precedence baseClient "SELECT 1" baseClient.toParams
      "text/tab-separated-values; charset=UTF-8" "1\n" (.transportErr "")
      (fun _ => (none, some "stream fail")) (by decide)).2

/-- C10: any `Timeout` value that is not positive — the unset zero as well
as negative durations — makes `timeout` (used by `Do` and `DoParams` to
derive the deadline) fall back to the module-level `DefaultTimeout` of 30
seconds, while a positive `Timeout` is used as-is. -/
theorem timeout_nonpositive_default (c : Client) (now : Int) :
    (c.Timeout ≤ 0 →
      c.timeout = DefaultTimeout ∧ c.doDeadline now = now + DefaultTimeout)
    ∧ (0 < c.Timeout →
      c.timeout = c.Timeout ∧ c.doDeadline now = now + c.Timeout)
    ∧ DefaultTimeout = 30 * second := by
  unfold Client.timeout Client.doDeadline
  refine ⟨fun h => ?_, fun h => ?_, rfl⟩
  · simp [Client.timeout, h]
  · simp [Client.timeout, not_le.mpr h]

/-- Witness for C10: a negative timeout of `-5ns` falls back to the 30s
default; a positive timeout of `5ns` is used as-is. -/
theorem timeout_nonpositive_default_witness :
    ({ baseClient with Timeout := -5 : Client }).timeout = DefaultTimeout
    ∧ ({ baseClient with Timeout := 5 : Client }).timeout = 5 := by
  constructor
  · exact ((timeout_nonpositive_default { baseClient with Timeout := -5 } 0).1 (by decide)).1
  · exact ((timeout_nonpositive_default { baseClient with Timeout := 5 } 0).2.1 (by decide)).1

/-- Any error path of `doRequest` leaves no response body open. -/
theorem doRequest_error_closed (c : Client) (addr query : String) (params : Params)
    (net : NetResult) (e : String)
    (h : (c.doRequest addr query params net).result = .error e) :
    (c.doRequest addr query params net).bodyClosed = true := by
  cases net with
  | transportErr m => rfl
  | response code ct body =>
    unfold Client.doRequest at h ⊢
    by_cases hc : code = 200
    · simp [hc] at h
    · simp [hc]

/-- C1 counterexample: with a fallback configured, a 500 response
successfully received from the primary address triggers a request to the
fallback address — the call is not treated as final there, and in this
run it even succeeds from the fallback. -/
theorem non200_primary_triggers_fallback :
    (fbClient.doContext "SELECT 1" fbClient.toParams
        (.response 500 "text/html" "Internal Server Error")
        (.response 200 "text/tab-separated-values" "1\n") none).fallbackTried = true
    ∧ (fbClient.doContext "SELECT 1" fbClient.toParams
        (.response 500 "text/html" "Internal Server Error")
        (.response 200 "text/tab-separated-values" "1\n") none).result = none := by
  constructor
  · rfl
  · rfl

/-- C1 amended: a non-200 response received from the primary address is
treated like any other failed attempt: when a fallback address is
configured the request IS sent to the fallback; only when no fallback is
configured is it a final failure of the call, surfaced as the status
error. -/
theorem non200_fallback_behaviour (c : Client) (query : String) (params : Params)
    (code : Nat) (ct body : String) (net2 : NetResult) (f : RowHandler)
    (hcode : code ≠ 200) :
    (c.FallbackAddr ≠ "" →
      (c.doContext query params (.response code ct body) net2 f).fallbackTried = true)
    ∧ (c.FallbackAddr = "" →
      c.doContext query params (.response code ct body) net2 f =
        { result := some (statusErrMsg query c.addr code body),
          fallbackTried := false, handlerInvoked := false, bodiesClosed := true }) := by
  constructor
  · intro hfb
    have hlen : ¬ (c.FallbackAddr.length = 0) :=
      fun h => hfb ((length_eq_zero_iff _).mp h)
    unfold Client.doContext Client.doRequest
    cases net2 with
    | transportErr e2 => simp [hcode, hlen]
    | response code2 ct2 body2 =>
      by_cases h2 : code2 = 200 <;> simp [hcode, hlen, h2]
  · intro hfb
    have hlen : c.FallbackAddr.length = 0 := (length_eq_zero_iff _).mpr hfb
    unfold Client.doContext Client.doRequest
    simp [hcode, hlen]

/-- Witness for C1 amended: a 502 primary response makes the configured
fallback get tried; without a fallback the same 502 is final and surfaced
as the status error. -/
theorem non200_fallback_behaviour_witness :
    (fbClient.doContext "SELECT 2" fbClient.toParams
        (.response 502 "text/plain" "bad gateway") (.transportErr "refused") none).fallbackTried
      = true
    ∧ baseClient.doContext "SELECT 2" baseClient.toParams
        (.response 502 "text/plain" "bad gateway") (.transportErr "refused") none =
      { result := some (statusErrMsg "SELECT 2" "localhost:8123" 502 "bad gateway"),
        fallbackTried := false, handlerInvoked := false, bodiesClosed := true } := by
  constructor
  · exact (non200_fallback_behaviour fbClient "SELECT 2" fbClient.toParams 502
      "text/plain" "bad gateway" (.transportErr "refused") none (by decide)).1 (by decide)
  · exact (non200_fallback_behaviour baseClient "SELECT 2" baseClient.toParams 502
      "text/plain" "bad gateway" (.transportErr "refused") none (by decide)).2 rfl

/-- C4: when the primary attempt fails, the call with no configured
fallback returns exactly the primary's error (naming only the primary
attempt); with a fallback configured whose attempt also fails, it returns
the single combined error, which contains both underlying failure texts
(quoted). -/
theorem primary_fallback_error_reporting (c : Client) (query : String) (params : Params)
    (net1 net2 : NetResult) (f : RowHandler) (e e2 : String)
    (h1 : (c.doRequest c.addr query params net1).result = .error e) :
    (c.FallbackAddr = "" →
      c.doContext query params net1 net2 f =
        { result := some e, fallbackTried := false, handlerInvoked := false,
          bodiesClosed := true })
    ∧ (c.FallbackAddr ≠ "" →
      (c.doRequest c.FallbackAddr query params net2).result = .error e2 →
      (c.doContext query params net1 net2 f).result = some (twoErrMsg e e2)
      ∧ (goQuote e).data <:+: (twoErrMsg e e2).data
      ∧ (goQuote e2).data <:+: (twoErrMsg e e2).data) := by
  constructor
  · intro hfb
    have hlen : c.FallbackAddr.length = 0 := (length_eq_zero_iff _).mpr hfb
    have hclosed := doRequest_error_closed c c.addr query params net1 e h1
    simp [Client.doContext, h1, hlen, hclosed]
  · intro hfb h2
    have hlen : ¬ (c.FallbackAddr.length = 0) :=
      fun h => hfb ((length_eq_zero_iff _).mp h)
    refine ⟨?_, ?_, ?_⟩
    · simp [Client.doContext, h1, h2, hlen]
    · exact infixLeft _ _ (infixLeft _ _ (infixRight _ _ List.infix_rfl))
    · exact infixRight _ _ List.infix_rfl

/-- Witness for C4 at concrete runs: with no fallback the primary's
transport error is returned as-is; with a fallback that also fails, the
combined two-address error is returned. -/
theorem primary_fallback_error_reporting_witness :
    baseClient.doContext "SELECT 1" baseClient.toParams
        (.transportErr "boom") (.transportErr "zap") none =
      { result := some (transportErrMsg "SELECT 1" "localhost:8123" "boom"),
        fallbackTried := false, handlerInvoked := false, bodiesClosed := true }
    ∧ (fbClient.doContext "SELECT 1" fbClient.toParams
        (.transportErr "boom") (.transportErr "zap") none).result =
      some (twoErrMsg (transportErrMsg "SELECT 1" "localhost:8123" "boom")
        (transportErrMsg "SELECT 1" "fallback:8123" "zap")) := by
  constructor
  · exact (primary_fallback_error_reporting baseClient "SELECT 1" baseClient.toParams
      (.transportErr "boom") (.transportErr "zap") none
      (transportErrMsg "SELECT 1" "localhost:8123" "boom") "" rfl).1 rfl
  · exact ((primary_fallback_error_reporting fbClient "SELECT 1" fbClient.toParams
      (.transportErr "boom") (.transportErr "zap") none
      (transportErrMsg "SELECT 1" "localhost:8123" "boom")
      (transportErrMsg "SELECT 1" "fallback:8123" "zap") rfl).2 (by decide) rfl).1

set_option maxRecDepth 100000 in
/-- C3 counterexample: with password `secret` configured and a transport
error that echoes the dialed URL (as Go transport errors do), the error
surfaced by the call contains the configured password verbatim — nothing
is scrubbed and no redaction marker is introduced. -/
theorem transport_error_surfaces_password :
    (secretClient.doContext "SELECT 1" secretClient.toParams
        (.transportErr echoedTransportErr) (.transportErr "") none).result =
      some (transportErrMsg "SELECT 1" "localhost:8123" echoedTransportErr)
    ∧ secretClient.Password.data <:+:
        (transportErrMsg "SELECT 1" "localhost:8123" echoedTransportErr).data := by
  constructor
  · rfl
  · decide

/-- C3 amended: the error surfaced on a transport-level failure is a fixed
preamble naming the query and address followed by the raw transport error
text verbatim; no scrubbing is performed, so any password value appearing
in the transport error text also appears in the surfaced message. -/
theorem transport_error_verbatim (c : Client) (query : String) (params : Params)
    (e pw : String) (net2 : NetResult) (f : RowHandler)
    (hfb : c.FallbackAddr = "") (hpw : pw.data <:+: e.data) :
    (c.doContext query params (.transportErr e) net2 f).result =
      some (transportErrMsg query c.addr e)
    ∧ transportErrMsg query c.addr e =
        ("error when performing query " ++ goQuote query ++ " at "
          ++ goQuote c.addr ++ ": ") ++ e
    ∧ pw.data <:+: (transportErrMsg query c.addr e).data := by
  refine ⟨?_, rfl, ?_⟩
  · have hlen : c.FallbackAddr.length = 0 := (length_eq_zero_iff _).mpr hfb
    simp [Client.doContext, Client.doRequest, hlen]
  · exact hpw.trans (infixRight _ _ List.infix_rfl)

/-- Witness for C3 amended, at the concrete secret-password run. -/
theorem transport_error_verbatim_witness :
    (secretClient.doContext "SHOW TABLES" secretClient.toParams
        (.transportErr echoedTransportErr) (.transportErr "") none).result =
      some (transportErrMsg "SHOW TABLES" secretClient.addr echoedTransportErr)
    ∧ "secret".data <:+:
        (transportErrMsg "SHOW TABLES" secretClient.addr echoedTransportErr).data := by
  refine ⟨(transport_error_verbatim secretClient "SHOW TABLES" secretClient.toParams
      echoedTransportErr "secret" (.transportErr "") none rfl (by decide)).1,
    (transport_error_verbatim secretClient "SHOW TABLES" secretClient.toParams
      echoedTransportErr "secret" (.transportErr "") none rfl (by decide)).2.2⟩

/-- C8 counterexample: for a 500 response whose body is 100000 bytes long,
the error message contains the ENTIRE body — `ioutil.ReadAll` reads it in
full and all of it is included, so the diagnostic is not a bounded
snippet. -/
theorem status_error_contains_full_body :
    (baseClient.doRequest "localhost:8123" "SELECT 1" baseClient.toParams
        (.response 500 "text/plain" longBody)).result =
      .error (statusErrMsg "SELECT 1" "localhost:8123" 500 longBody)
    ∧ longBody.data <:+: (statusErrMsg "SELECT 1" "localhost:8123" 500 longBody).data := by
  constructor
  · rfl
  · have hplain : ∀ ch ∈ longBody.data, quoteChar ch = [ch] := by
      intro ch hch
      have ha : ch = 'a' := List.eq_of_mem_replicate hch
      rw [ha]
      rfl
    exact infixRight _ _ (goQuote_contains hplain)

/-- C8 amended: on a non-200 response the returned error carries the
status code and the response body read IN FULL (the entire body appears,
quoted, in the message — there is no bound on the read), and the body is
closed on that path. -/
theorem status_error_full_body (c : Client) (addr query : String) (params : Params)
    (code : Nat) (ct body : String) (hcode : code ≠ 200) :
    c.doRequest addr query params (.response code ct body) =
      { result := .error (statusErrMsg query addr code body), bodyClosed := true }
    ∧ (toString code).data <:+: (statusErrMsg query addr code body).data
    ∧ ((∀ ch ∈ body.data, quoteChar ch = [ch]) →
        body.data <:+: (statusErrMsg query addr code body).data) := by
  refine ⟨?_, ?_, fun hplain => ?_⟩
  · unfold Client.doRequest
    simp [hcode]
  · exact infixLeft _ _ (infixLeft _ _ (infixRight _ _ List.infix_rfl))
  · exact infixRight _ _ (goQuote_contains hplain)

/-- Witness for C8 amended at a concrete 500 response with body `FAIL`. -/
theorem status_error_full_body_witness :
    baseClient.doRequest "localhost:8123" "SELECT 1" baseClient.toParams
        (.response 500 "text/plain" "FAIL") =
      { result := .error (statusErrMsg "SELECT 1" "localhost:8123" 500 "FAIL"),
        bodyClosed := true }
    ∧ "FAIL".data <:+: (statusErrMsg "SELECT 1" "localhost:8123" 500 "FAIL").data := by
  refine ⟨(status_error_full_body baseClient "localhost:8123" "SELECT 1"
      baseClient.toParams 500 "text/plain" "FAIL" (by decide)).1,
    (status_error_full_body baseClient "localhost:8123" "SELECT 1"
      baseClient.toParams 500 "text/plain" "FAIL" (by decide)).2.2 (by decide)⟩

/-- Every element of the assembled parameter list is a raw caller param,
a `user=`/`password=`/`database=` entry, or — only when compression is
on — the compression flag. -/
theorem mem_prepareArgs (c : Client) (p : Params) (x : String)
    (hx : x ∈ prepareArgs c p) :
    x ∈ p.URLParams
    ∨ x = "user=" ++ (if p.User.length > 0 then queryEscape p.User else "default")
    ∨ x = "password=" ++ queryEscape p.Password
    ∨ x = "database=" ++ queryEscape p.Database
    ∨ (c.CompressResponse = true ∧ x = "enable_http_compression=1") := by
  unfold prepareArgs at hx
  split_ifs at hx ⊢ <;> simp [List.mem_append] at hx <;> tauto

/-- C9 counterexample: compression is off, yet the built request carries
the `enable_http_compression=1` parameter, because the caller placed it
verbatim in `URLParams`; the flag alone does not determine the
parameter's presence on the wire. -/
theorem compression_param_caller_injected :
    baseClient.CompressResponse = false
    ∧ "enable_http_compression=1" ∈ prepareArgs baseClient sneakyParams
    ∧ (baseClient.prepareRequest "localhost:8123" "SELECT 1" sneakyParams).headers =
        [("Accept-Encoding", "identity")] := by
  refine ⟨rfl, ?_, rfl⟩
  decide

/-- C9 amended: the compression flag is the single source of truth for
what the builder does: when false, the request carries
`Accept-Encoding: identity` and the builder appends no
`enable_http_compression` parameter (so if the caller's raw `URLParams` do
not themselves contain `enable_http_compression=1`, the request carries
none); when true, the request carries `enable_http_compression=1` and no
`Accept-Encoding` header is set. -/
theorem compression_flag_behaviour (c : Client) (params : Params) (addr query : String) :
    (c.CompressResponse = false →
      (c.prepareRequest addr query params).headers = [("Accept-Encoding", "identity")]
      ∧ ("enable_http_compression=1" ∉ params.URLParams →
          "enable_http_compression=1" ∉ prepareArgs c params))
    ∧ (c.CompressResponse = true →
      "enable_http_compression=1" ∈ prepareArgs c params
      ∧ (c.prepareRequest addr query params).headers = []) := by
  have husr : ∀ u : String, ("enable_http_compression=1" : String) ≠ "user=" ++ u := by
    intro u heq
    exact absurd (show some 'e' = some 'u' from
      congrArg (fun s : String => s.data.head?) heq) (by decide)
  have hpwd : ("enable_http_compression=1" : String) ≠ "password=" ++ queryEscape params.Password := by
    intro heq
    exact absurd (show some 'e' = some 'p' from
      congrArg (fun s : String => s.data.head?) heq) (by decide)
  have hdb : ("enable_http_compression=1" : String) ≠ "database=" ++ queryEscape params.Database := by
    intro heq
    exact absurd (show some 'e' = some 'd' from
      congrArg (fun s : String => s.data.head?) heq) (by decide)
  constructor
  · intro hflag
    constructor
    · simp [Client.prepareRequest, hflag]
    · intro hnot hmem
      rcases mem_prepareArgs c params _ hmem with h | h | h | h | h
      · exact hnot h
      · exact husr _ h
      · exact hpwd h
      · exact hdb h
      · rw [hflag] at h
        exact absurd h.1 (by simp)
  · intro hflag
    constructor
    · unfold prepareArgs
      simp [hflag]
    · simp [Client.prepareRequest, hflag]

/-- Witness for C9 amended: with the zero-value client (compression off,
no caller-injected param) the request has the identity header and no
compression parameter; with compression on, the parameter is present. -/
theorem compression_flag_behaviour_witness :
    (baseClient.prepareRequest "localhost:8123" "SELECT 1" baseClient.toParams).headers =
      [("Accept-Encoding", "identity")]
    ∧ "enable_http_compression=1" ∉ prepareArgs baseClient baseClient.toParams
    ∧ "enable_http_compression=1" ∈
        prepareArgs { baseClient with CompressResponse := true } baseClient.toParams := by
  refine ⟨((compression_flag_behaviour baseClient baseClient.toParams
      "localhost:8123" "SELECT 1").1 rfl).1,
    ((compression_flag_behaviour baseClient baseClient.toParams
      "localhost:8123" "SELECT 1").1 rfl).2 (by decide),
    ((compression_flag_behaviour { baseClient with CompressResponse := true }
      baseClient.toParams "localhost:8123" "SELECT 1").2 rfl).1⟩

end Chclient
